import Mathlib

/-!
Verification of the cookbook notebooks' data-shaping code:
the JSON-to-CSV conversion and base64 encoding cells of
`gpt_action_sql_database.ipynb`, the image/sentiment pipeline of
`image_understanding_with_rag.ipynb`, and the index-creation cell of
`redisjson.ipynb`, together with the spec's external-service-client
contract.
-/

namespace Cookbook

/-! ## JSON-to-CSV conversion cell (gpt_action_sql_database.ipynb)

The cell loads a JSON array of objects into `data`, writes
`header = data[0].keys()` and then one `csvwriter.writerow(row.values())`
per record, in input order.  Records are modelled as association lists of
fields (a field is a list of characters, the `str()` form that
`csv.writer` writes); `csv.writer` uses the default dialect, which quotes
a field iff it contains the delimiter, the quote character or a line
terminator character, doubling embedded quotes. -/

abbrev Field := List Char

abbrev JsonRecord := List (Field × Field)

def keysOf (r : JsonRecord) : List Field := r.map Prod.fst

def valuesOf (r : JsonRecord) : List Field := r.map Prod.snd

/-- Does `csv.writer` (default dialect, QUOTE_MINIMAL) need to quote this
field?  True iff the field contains the delimiter, the quote char or a
line-terminator character. -/
def needsQuote (f : Field) : Bool :=
  f.any (fun c => c = ',' || c = '"' || c = '\n' || c = '\r')

/-- Double every quote character, as `csv.writer` does inside a quoted
field. -/
def escapeQuotes : List Char → List Char
  | [] => []
  | c :: cs =>
    if c = '"' then '"' :: '"' :: escapeQuotes cs else c :: escapeQuotes cs

/-- Render one field the way `csv.writer` (default dialect) writes it. -/
def renderField (f : Field) : Field :=
  if needsQuote f then '"' :: (escapeQuotes f ++ ['"']) else f

/-- Render one row: fields joined by the `,` delimiter.  This is the text
of one line written by a single `csvwriter.writerow` call. -/
def joinRow : List Field → List Char
  | [] => []
  | [f] => renderField f
  | f :: g :: rest => renderField f ++ ',' :: joinRow (g :: rest)

/-- Python list indexing: `data[i]` raises `IndexError` when the index is
out of range. -/
def listIndex {α : Type} (xs : List α) (i : Nat) : Except String α :=
  match xs.get? i with
  | some x => Except.ok x
  | none => Except.error "IndexError: list index out of range"

/-- The JSON-to-CSV conversion cell: `header = data[0].keys()` (which
raises `IndexError` on an empty list), then the header row followed by
one row of values per record, in input order.  The result is the list of
lines written to `output.csv`. -/
def jsonToCsv (data : List JsonRecord) : Except String (List (List Char)) := do
  let first ← listIndex data 0
  Except.ok (joinRow (keysOf first) :: data.map (fun r => joinRow (valuesOf r)))

/-! ## Reading the table back

The repository only writes CSV; the spec's round-trip property
("converting to tabular form and back preserves field names and values")
needs the inverse reading direction. -/

/-- Modelled from the spec: the reading direction of the round-trip
property, `csv.reader` default-dialect field scanning of one line.  The
first argument tells whether the scan is inside a quoted section.
Outside quotes: `,` ends a field, a quote at the very start of a field
opens a quoted section, any other character is literal.  Inside quotes: a
doubled quote is a literal quote, a single quote closes the section,
anything else is literal.  `acc` is the text of the current field read so
far. -/
def scanFields : Bool → List Char → List Char → List (List Char)
  | false, [], acc => [acc]
  | false, c :: cs, acc =>
    if c = ',' then acc :: scanFields false cs []
    else if c = '"' ∧ acc = [] then scanFields true cs []
    else scanFields false cs (acc ++ [c])
  | true, [], acc => [acc]
  | true, ['"'], acc => [acc]
  | true, '"' :: c2 :: cs2, acc =>
    if c2 = '"' then scanFields true cs2 (acc ++ ['"'])
    else scanFields false (c2 :: cs2) acc
  | true, c :: cs, acc => scanFields true cs (acc ++ [c])

/-- Modelled from the spec: parse one CSV line into its fields; a blank
line carries no fields (as with `csv.reader`, which yields no data for
it). -/
def parseRow (cs : List Char) : List Field :=
  if cs = [] then [] else scanFields false cs []

/-- Modelled from the spec: read the whole table back, pairing the header
fields with each data row's fields to recover the records. -/
def csvParse (lines : List (List Char)) : List JsonRecord :=
  match lines with
  | [] => []
  | h :: rows => rows.map (fun r => (parseRow h).zip (parseRow r))

/-! ## Base64 encoding cell

`base64.b64encode(open('output.csv','rb').read()).decode('utf-8')` in the
SQL-action notebook, and `encode_image` in the RAG notebook.  Bytes are
naturals below 256; the standard alphabet with `=` padding. -/

def b64Alphabet : List Char :=
  "ABCDEFGHIJKLMNOPQRSTUVWXYZabcdefghijklmnopqrstuvwxyz0123456789+/".data

def encChar (n : Nat) : Char := b64Alphabet.getD n '?'

def decChar (c : Char) : Nat := b64Alphabet.indexOf c

/-- `base64.b64encode`: groups of three bytes become four alphabet
characters; a trailing group of one or two bytes is padded with `=`. -/
def b64encode : List Nat → List Char
  | a :: b :: c :: rest =>
    encChar (a / 4) :: encChar (a % 4 * 16 + b / 16) ::
      encChar (b % 16 * 4 + c / 64) :: encChar (c % 64) :: b64encode rest
  | [a, b] => [encChar (a / 4), encChar (a % 4 * 16 + b / 16), encChar (b % 16 * 4), '=']
  | [a] => [encChar (a / 4), encChar (a % 4 * 16), '=', '=']
  | [] => []

/-- `base64.b64decode`: each group of four characters yields three bytes,
or fewer for the final `=`-padded group. -/
def b64decode : List Char → List Nat
  | c1 :: c2 :: c3 :: c4 :: rest =>
    if c3 = '=' then [decChar c1 * 4 + decChar c2 / 16]
    else if c4 = '=' then
      [decChar c1 * 4 + decChar c2 / 16, decChar c2 % 16 * 16 + decChar c3 / 4]
    else
      (decChar c1 * 4 + decChar c2 / 16) ::
        (decChar c2 % 16 * 16 + decChar c3 / 4) ::
        (decChar c3 % 4 * 64 + decChar c4) :: b64decode rest
  | _ => []

/-! ## Image generation cell (image_understanding_with_rag.ipynb)

`cache_path = f".local_cache/{hash(prompt)}.png"`; the Image API is
called only when no file exists at that path. -/

/-- Modelled from the spec of Python's built-in `hash` on strings: the
hash is keyed by a per-interpreter-session secret (hash randomization,
`PYTHONHASHSEED`), so it is a function of the session salt together with
the string, reduced modulo 2^64.  The keyed-hash implementation itself is
CPython runtime code, not part of this repository. -/
def pyStrHash (salt : Nat) (s : String) : Nat :=
  s.data.foldl (fun h c => (h * 1000003 + c.toNat) % 2 ^ 64) (salt % 2 ^ 64)

/-- The cache file name the generation cell derives from the prompt. -/
def cachePath (salt : Nat) (prompt : String) : String :=
  ".local_cache/" ++ toString (pyStrHash salt prompt) ++ ".png"

/-- The image-generation cell: compute the cache path, call the external
Image API only if no file with that name exists.  Returns the path used
and whether the external call was made. -/
def generateImageCell (salt : Nat) (existingFiles : List String)
    (prompt : String) : String × Bool :=
  let path := cachePath salt prompt
  (path, !existingFiles.contains path)

/-- The prompt hard-coded in the generation cell. -/
def pastaPrompt : String :=
  "Gourmet pasta neatly plated with garnish and sides on a white ceramic plate, photographed from above on a restaurant table. Soft shadows and vibrant colors."

/-! ## encode_image / analyze_image_sentiment

`encode_image` opens the image file (raising `FileNotFoundError` when it
does not exist) and base64-encodes its bytes; `analyze_image_sentiment`
composes the Responses API request from that encoding and only then
performs the network call.  The file system is an oracle from paths to
optional byte contents, the network an oracle from requests to reply
text. -/

structure ImgRequest where
  model : String
  text : String
  imageUrl : String
  deriving DecidableEq, Repr

/-- `encode_image`: read the file and base64-encode it; a missing file is
a `FileNotFoundError` raised before anything else happens. -/
def encode_image (fs : String → Option (List Nat)) (image_path : String) :
    Except String (List Char) :=
  match fs image_path with
  | none => Except.error ("FileNotFoundError: " ++ image_path)
  | some bytes => Except.ok (b64encode bytes)

/-- The request `analyze_image_sentiment` composes; composition fails
before the network call when the image file is missing. -/
def analyzeImageRequest (fs : String → Option (List Nat)) (image_path : String) :
    Except String ImgRequest :=
  match encode_image fs image_path with
  | Except.error e => Except.error e
  | Except.ok b64 =>
    Except.ok
      { model := "gpt-4.1"
        text := "Analyze this food delivery image. Respond with a brief description and sentiment (positive/negative) in one line."
        imageUrl := "data:image/jpeg;base64," ++ String.mk b64 }

/-- `analyze_image_sentiment`: compose the request, then call the
network.  Returns the result together with the list of requests actually
sent to the external service. -/
def analyze_image_sentiment (fs : String → Option (List Nat))
    (net : ImgRequest → String) (image_path : String) :
    Except String String × List ImgRequest :=
  match analyzeImageRequest fs image_path with
  | Except.error e => (Except.error e, [])
  | Except.ok req => (Except.ok (net req), [req])

/-! ## upload_files_to_vector_store

For each row the function builds a text file payload from the selected
column — substituting `'No information available.'` when the value is
missing (`pd.isna`) — names it from `row.get('id', i)` and
`row.get('month', '')`, and uploads it.  A row is modelled by the three
values the function reads; `none` stands for a missing (NaN) value. -/

structure UploadRow where
  id : Option String
  month : Option String
  content : Option String
  deriving DecidableEq, Repr

structure UploadReq where
  name : String
  payload : String
  deriving DecidableEq, Repr

/-- The upload request composed for row `row` at position `i`. -/
def composeUpload (i : Nat) (row : UploadRow) : UploadReq :=
  { name := "context_" ++ row.id.getD (toString i) ++ "_" ++ row.month.getD "" ++ ".txt"
    payload := row.content.getD "No information available." }

/-- The sequence of upload requests sent by the first loop of
`upload_files_to_vector_store`, starting at row position `i`. -/
def uploadRequestsFrom (i : Nat) : List UploadRow → List UploadReq
  | [] => []
  | row :: rows => composeUpload i row :: uploadRequestsFrom (i + 1) rows

/-- All upload requests `upload_files_to_vector_store` sends, in row
order. -/
def uploadRequests (rows : List UploadRow) : List UploadReq :=
  uploadRequestsFrom 0 rows

/-- Running the uploads against the external service: the first failure
propagates immediately and no later upload is attempted. -/
def runUploads (uploadFn : UploadReq → Except String String) :
    List UploadReq → Except String (List String)
  | [] => Except.ok []
  | r :: rs =>
    match uploadFn r with
    | Except.error e => Except.error e
    | Except.ok fid =>
      match runUploads uploadFn rs with
      | Except.error e => Except.error e
      | Except.ok fids => Except.ok (fid :: fids)

/-! ## The full_sentiment merge cell

For every row with a non-missing `image_path` the loop sets
`full_sentiment` to the image sentiment, prefixed by the row's `text`
when that is present; afterwards `fillna` copies `text` into the still
missing entries.  The `full_sentiment` column does not exist in the input
file, and no other column is assigned. -/

structure FeedbackRow where
  id : Option String
  month : Option String
  text : Option String
  image_path : Option String
  label : Option String
  deriving DecidableEq, Repr

structure MergedRow where
  id : Option String
  month : Option String
  text : Option String
  image_path : Option String
  label : Option String
  full_sentiment : Option String
  deriving DecidableEq, Repr

def imageFsPath (p : String) : String := ".local_cache/images/" ++ p

/-- The merge cell, with the external sentiment model as an oracle from
image paths to sentiment text. -/
def mergeFullSentiment (sentimentOf : String → String)
    (rows : List FeedbackRow) : List MergedRow :=
  rows.map (fun row =>
    { id := row.id, month := row.month, text := row.text
      image_path := row.image_path, label := row.label
      full_sentiment :=
        match row.image_path with
        | some p =>
          match row.text with
          | some t => some (t ++ " " ++ sentimentOf (imageFsPath p))
          | none => some (sentimentOf (imageFsPath p))
        | none => row.text })

/-! ## display_retrieved_images

The function reads `response.output[1].content[0].annotations` inside a
`try` block; an `AttributeError` or `IndexError` there is caught, a
notice is printed and an empty dict returned.  Otherwise it builds the
SET of retrieved file names and iterates over it, displaying the mapped
image for each name that maps to a truthy path.  The iteration order of a
Python set of strings is decided by the interpreter (salted string
hashes), not by the response, so it enters the model as an explicit
`order` argument constrained to enumerate the retrieved set. -/

structure SearchHit where
  filename : String
  deriving DecidableEq, Repr

structure ContentPart where
  anns : Option (List SearchHit)
  deriving DecidableEq, Repr

structure OutputItem where
  content : List ContentPart
  deriving DecidableEq, Repr

structure RagResponse where
  output : List OutputItem
  deriving DecidableEq, Repr

/-- `response.output[1].content[0].annotations`: `none` when the access
raises `AttributeError` or `IndexError`. -/
def getAnns (resp : RagResponse) : Option (List SearchHit) := do
  let item ← resp.output.get? 1
  let part ← item.content.get? 0
  part.anns

/-- The set of retrieved file names, as the distinct elements in first
appearance order; a run of the loop iterates these in some
interpreter-chosen order. -/
def retrievedFiles (resp : RagResponse) : List String :=
  match getAnns resp with
  | none => []
  | some anns => (anns.map SearchHit.filename).dedup

structure DisplayOut where
  printed : List String
  displayed : List (String × String)
  deriving DecidableEq, Repr

/-- `display_retrieved_images`: the produced artifact (printed lines and
the displayed file-to-path pairs, in display order) for a run whose set
iteration order is `order`. -/
def display_retrieved_images (mapping : List (String × String))
    (order : List String) (resp : RagResponse) : DisplayOut :=
  match getAnns resp with
  | none => { printed := ["No search results found in the response."], displayed := [] }
  | some _ =>
    let pairs := order.filterMap (fun file =>
      match List.lookup file mapping with
      | some p => if p = "" then none else some (file, ".local_cache/images/" ++ p)
      | none => none)
    { printed := pairs.map (fun q => "Displaying image for " ++ q.1 ++ ":")
      displayed := pairs }

/-! ## Index-creation cell (redisjson.ipynb)

`try: client.ft('idx').dropindex() except: pass` followed by
`client.ft('idx').create_index(...)`: a failure of the drop call is
swallowed by the bare `except`, a failure of the create call propagates
and halts the cell.  The two external calls enter as oracle results. -/

def createIndexCell (dropRes : Except String String)
    (createRes : Except String String) : Except String String :=
  match dropRes with
  | Except.ok _ => createRes
  | Except.error _ => createRes

/-! ## External Service Client (spec contract, OpenAPI declaration)

Modelled from the spec: the middleware behind the OpenAPI schema of
`gpt_action_sql_database.ipynb` is not part of the repository; only its
declaration is, with responses `400 Bad Request. Invalid input.` and
`401 Unauthorized. Invalid or missing API key.`.  The client fails with a
`ServiceError` carrying the status and its category on every non-success
status. -/

inductive ErrCategory where
  | clientError
  | authError
  | serverOrOther
  deriving DecidableEq, Repr

structure ServiceError where
  status : Nat
  category : ErrCategory
  message : String
  deriving DecidableEq, Repr

def categoryOf (status : Nat) : ErrCategory :=
  if status = 400 then ErrCategory.clientError
  else if status = 401 then ErrCategory.authError
  else ErrCategory.serverOrOther

structure HttpResp where
  status : Nat
  body : String
  deriving DecidableEq, Repr

/-- Modelled from the spec: the External Service Client returns the
parsed body on a success status and fails with a `ServiceError` naming
the status and its category otherwise. -/
def serviceClient (resp : HttpResp) : Except ServiceError String :=
  if 200 ≤ resp.status ∧ resp.status < 300 then Except.ok resp.body
  else
    Except.error
      { status := resp.status
        category := categoryOf resp.status
        message :=
          if resp.status = 400 then "Bad Request. Invalid input."
          else if resp.status = 401 then "Unauthorized. Invalid or missing API key."
          else "" }

/-! ## Concrete fixtures used by counterexamples and witnesses -/

def fix3r0 : JsonRecord := [("account_id".data, "1".data), ("number_of_users".data, "10".data)]

def fix3r1 : JsonRecord := [("account_id".data, "2".data), ("number_of_users".data, "12".data)]

def fix3r2 : JsonRecord := [("account_id".data, "3".data), ("number_of_users".data, "7".data)]

def fixture3 : List JsonRecord := [fix3r0, fix3r1, fix3r2]

/-- Two records with different keys: the second record's key never
reaches the CSV file. -/
def heteroRecords : List JsonRecord := [[("a".data, "1".data)], [("b".data, "2".data)]]

/-- Two records over the same keys, with a delimiter and an embedded
quote in the values. -/
def uniformRecords : List JsonRecord :=
  [[("account_id".data, "1".data), ("note".data, "a,b".data)],
   [("account_id".data, "2".data), ("note".data, "say \"hi\"".data)]]

def noFs : String → Option (List Nat) := fun _ => none

def noNet : ImgRequest → String := fun _ => ""

def failUpload : UploadReq → Except String String :=
  fun _ => Except.error "AuthenticationError"

def sampleReq : UploadReq := { name := "context_0_.txt", payload := "hello" }

def emptyResp : RagResponse := { output := [] }

/-- A row whose `full_sentiment` value is missing (NaN). -/
def nanRow : UploadRow := { id := none, month := some "july", content := none }

def respTwoHits : RagResponse :=
  { output :=
      [{ content := [] },
       { content := [{ anns := some [{ filename := "context_2_july.txt" },
                                     { filename := "context_3_july.txt" }] }] }] }

def mappingTwo : List (String × String) :=
  [("context_2_july.txt", "2.png"), ("context_3_july.txt", "3.png")]

def orderA : List String := ["context_2_july.txt", "context_3_july.txt"]

def orderB : List String := ["context_3_july.txt", "context_2_july.txt"]

def sentimentFix : String → String := fun _ => "Plated pasta, looks fresh. positive"

def rowImgText : FeedbackRow :=
  { id := some "1", month := some "july", text := some "Great!"
    image_path := some "1.png", label := some "positive" }

def rowTextOnly : FeedbackRow :=
  { id := some "2", month := some "june", text := some "Bad."
    image_path := none, label := some "negative" }

def rows2 : List FeedbackRow := [rowImgText, rowTextOnly]

def outImg : MergedRow :=
  { id := some "1", month := some "july", text := some "Great!"
    image_path := some "1.png", label := some "positive"
    full_sentiment := some ("Great!" ++ " " ++ sentimentFix (imageFsPath "1.png")) }

def outText : MergedRow :=
  { id := some "2", month := some "june", text := some "Bad."
    image_path := none, label := some "negative"
    full_sentiment := some "Bad." }

/-! ## Round-trip lemmas for the CSV presenter -/

theorem needsQuote_false_plain {f : Field} (h : needsQuote f = false) :
    ∀ c ∈ f, c ≠ ',' ∧ c ≠ '"' := by
  intro c hc
  simp only [needsQuote, List.any_eq_false, Bool.or_eq_false_iff] at h
  have := h c hc
  constructor <;> intro heq <;> subst heq <;> simp_all

theorem scanFields_append_plain (v : List Char)
    (hv : ∀ c ∈ v, c ≠ ',' ∧ c ≠ '"') :
    ∀ rest acc : List Char,
      scanFields false (v ++ rest) acc = scanFields false rest (acc ++ v) := by
  induction v with
  | nil => intro rest acc; simp
  | cons c v ih =>
    intro rest acc
    obtain ⟨hc, hq⟩ := hv c (by simp)
    have hv' : ∀ x ∈ v, x ≠ ',' ∧ x ≠ '"' := fun x hx => hv x (by simp [hx])
    have h1 : scanFields false (c :: (v ++ rest)) acc
        = scanFields false (v ++ rest) (acc ++ [c]) := by
      rw [scanFields]
      rw [if_neg hc, if_neg (by simp [hq])]
    rw [List.cons_append, h1, ih hv' rest (acc ++ [c])]
    simp

theorem scanFields_quoted_literal {c : Char} (hc : c ≠ '"')
    (cs acc : List Char) :
    scanFields true (c :: cs) acc = scanFields true cs (acc ++ [c]) := by
  cases cs with
  | nil => simp [scanFields, hc]
  | cons d ds => simp [scanFields, hc]

theorem scanFields_quote_close {r : Char} (hr : r ≠ '"')
    (rs acc : List Char) :
    scanFields true ('"' :: r :: rs) acc = scanFields false (r :: rs) acc := by
  simp [scanFields, hr]

theorem scanFields_quoted_escape (v : List Char) :
    ∀ rest acc : List Char,
      (rest = [] ∨ ∃ r rs, rest = r :: rs ∧ r ≠ '"') →
      scanFields true (escapeQuotes v ++ '"' :: rest) acc
        = scanFields false rest (acc ++ v) := by
  induction v with
  | nil =>
    intro rest acc hrest
    rcases hrest with h | ⟨r, rs, hr, hne⟩
    · subst h
      simp [escapeQuotes, scanFields]
    · subst hr
      simp only [escapeQuotes, List.nil_append]
      rw [scanFields_quote_close hne]
      simp
  | cons x v ih =>
    intro rest acc hrest
    by_cases hx : x = '"'
    · subst hx
      have h1 : escapeQuotes ('"' :: v) = '"' :: '"' :: escapeQuotes v := by
        simp [escapeQuotes]
      rw [h1, List.cons_append, List.cons_append, scanFields, if_pos rfl]
      rw [ih rest (acc ++ ['"']) hrest]
      simp
    · have h1 : escapeQuotes (x :: v) = x :: escapeQuotes v := by
        simp [escapeQuotes, hx]
      rw [h1, List.cons_append, scanFields_quoted_literal hx,
        ih rest (acc ++ [x]) hrest]
      simp

theorem scanFields_renderField_comma (f : Field) (t : List Char) :
    scanFields false (renderField f ++ ',' :: t) []
      = f :: scanFields false t [] := by
  by_cases hq : needsQuote f
  · have h1 : renderField f = '"' :: (escapeQuotes f ++ ['"']) := by
      simp [renderField, hq]
    rw [h1, List.cons_append, scanFields, if_neg (by decide), if_pos (by simp)]
    have h2 : (escapeQuotes f ++ ['"']) ++ ',' :: t
        = escapeQuotes f ++ '"' :: (',' :: t) := by simp
    rw [h2, scanFields_quoted_escape f (',' :: t) []
      (Or.inr ⟨',', t, rfl, by decide⟩)]
    rw [scanFields, if_pos rfl]
    simp
  · have h1 : renderField f = f := by simp [renderField, hq]
    have hplain := needsQuote_false_plain (by simpa using hq)
    rw [h1, scanFields_append_plain f hplain (',' :: t) []]
    rw [scanFields, if_pos rfl]
    simp

theorem scanFields_renderField_single (f : Field) :
    scanFields false (renderField f) [] = [f] := by
  by_cases hq : needsQuote f
  · have h1 : renderField f = '"' :: (escapeQuotes f ++ ['"']) := by
      simp [renderField, hq]
    rw [h1, scanFields, if_neg (by decide), if_pos (by simp)]
    have h2 : escapeQuotes f ++ ['"'] = escapeQuotes f ++ '"' :: ([] : List Char) := by
      simp
    rw [h2, scanFields_quoted_escape f [] [] (Or.inl rfl)]
    simp [scanFields]
  · have h1 : renderField f = f := by simp [renderField, hq]
    have hplain := needsQuote_false_plain (by simpa using hq)
    have h2 := scanFields_append_plain f hplain [] []
    rw [h1]
    simpa [scanFields] using h2

theorem renderField_ne_nil {f : Field} (hf : f ≠ []) : renderField f ≠ [] := by
  by_cases hq : needsQuote f <;> simp [renderField, hq, hf]

theorem joinRow_ne_nil {fs : List Field} (h0 : fs ≠ [])
    (h1 : ∀ f ∈ fs, f ≠ []) : joinRow fs ≠ [] := by
  match fs with
  | [f] => simpa [joinRow] using renderField_ne_nil (h1 f (by simp))
  | f :: g :: rest => simp [joinRow]

theorem scanFields_joinRow (fs : List Field) (h0 : fs ≠ []) :
    scanFields false (joinRow fs) [] = fs := by
  match fs with
  | [f] => simpa [joinRow] using scanFields_renderField_single f
  | f :: g :: rest =>
    rw [joinRow, scanFields_renderField_comma f (joinRow (g :: rest))]
    rw [scanFields_joinRow (g :: rest) (by simp)]

theorem parseRow_joinRow (fs : List Field) (h0 : fs ≠ [])
    (h1 : ∀ f ∈ fs, f ≠ []) : parseRow (joinRow fs) = fs := by
  rw [parseRow, if_neg (joinRow_ne_nil h0 h1)]
  exact scanFields_joinRow fs h0

/-! ## Round-trip lemmas for base64 -/

theorem decChar_encChar : ∀ n < 64, decChar (encChar n) = n := by decide

theorem encChar_ne_pad : ∀ n < 64, encChar n ≠ '=' := by decide

theorem b64_roundtrip_aux :
    ∀ bs : List Nat, (∀ x ∈ bs, x < 256) → b64decode (b64encode bs) = bs
  | [], _ => rfl
  | [a], h => by
    have ha : a < 256 := h a (by simp)
    rw [b64encode, b64decode, if_pos rfl]
    rw [decChar_encChar (a / 4) (by omega), decChar_encChar (a % 4 * 16) (by omega)]
    congr 1
    omega
  | [a, b], h => by
    have ha : a < 256 := h a (by simp)
    have hb : b < 256 := h b (by simp)
    rw [b64encode, b64decode,
      if_neg (encChar_ne_pad (b % 16 * 4) (by omega)), if_pos rfl]
    rw [decChar_encChar (a / 4) (by omega),
      decChar_encChar (a % 4 * 16 + b / 16) (by omega),
      decChar_encChar (b % 16 * 4) (by omega)]
    congr 1
    · omega
    · congr 1
      omega
  | a :: b :: c :: rest, h => by
    have ha : a < 256 := h a (by simp)
    have hb : b < 256 := h b (by simp)
    have hc : c < 256 := h c (by simp)
    have ih := b64_roundtrip_aux rest (fun x hx => h x (by simp [hx]))
    rw [b64encode, b64decode,
      if_neg (encChar_ne_pad (b % 16 * 4 + c / 64) (by omega)),
      if_neg (encChar_ne_pad (c % 64) (by omega))]
    rw [decChar_encChar (a / 4) (by omega),
      decChar_encChar (a % 4 * 16 + b / 16) (by omega),
      decChar_encChar (b % 16 * 4 + c / 64) (by omega),
      decChar_encChar (c % 64) (by omega), ih]
    congr 1
    · omega
    congr 1
    · omega
    congr 1
    omega

theorem uploadRequestsFrom_length : ∀ (i : Nat) (rows : List UploadRow),
    (uploadRequestsFrom i rows).length = rows.length
  | _, [] => rfl
  | i, _ :: rows => by
    simp [uploadRequestsFrom, uploadRequestsFrom_length (i + 1) rows]

/-! ## The claims -/

/-- C1: for every response presented as a CSV table, the header row is
the rendering of the first record's keys in their original order, and the
data rows are the renderings of the records' values in exactly the input
order (row `i + 1` of the file comes from record `i`). -/
theorem c1_csv_header_and_row_order (data : List JsonRecord) (r : JsonRecord)
    (rest : List JsonRecord) (h : data = r :: rest) :
    jsonToCsv data
      = Except.ok (joinRow (keysOf r) :: data.map (fun rec => joinRow (valuesOf rec)))
    ∧ ∀ i rec, data.get? i = some rec →
        (joinRow (keysOf r) :: data.map (fun rec => joinRow (valuesOf rec))).get? (i + 1)
          = some (joinRow (valuesOf rec)) := by
  subst h
  constructor
  · rfl
  · intro i rec hrec
    have h1 : ((r :: rest).map (fun rec => joinRow (valuesOf rec))).get? i
        = some (joinRow (valuesOf rec)) := by
      rw [List.get?_map, hrec]
      rfl
    rw [List.get?_cons_succ]
    exact h1

/-- Witness for C1 at a three-record fixture: the header line renders the
first record's keys, and file line 2 renders record 1's values. -/
theorem c1_witness :
    jsonToCsv fixture3
      = Except.ok (joinRow (keysOf fix3r0) :: fixture3.map (fun rec => joinRow (valuesOf rec)))
    ∧ (joinRow (keysOf fix3r0) :: fixture3.map (fun rec => joinRow (valuesOf rec))).get? 2
        = some (joinRow (valuesOf fix3r1)) :=
  ⟨(c1_csv_header_and_row_order fixture3 fix3r0 [fix3r1, fix3r2] rfl).1,
   (c1_csv_header_and_row_order fixture3 fix3r0 [fix3r1, fix3r2] rfl).2 1 fix3r1 rfl⟩

/-- C2 counterexample: two records with different keys (`a` vs `b`)
convert to a table whose header comes from the first record only; reading
the table back gives the second record the first record's field name, so
the round trip is not the identity on this input. -/
theorem c2_counterexample :
    jsonToCsv heteroRecords = Except.ok [['a'], ['1'], ['2']]
    ∧ csvParse [['a'], ['1'], ['2']] = [[(['a'], ['1'])], [(['a'], ['2'])]]
    ∧ [[(['a'], ['1'])], [(['a'], ['2'])]] ≠ heteroRecords := by
  refine ⟨rfl, rfl, by decide⟩

/-- C2 (amended): for every non-empty list of records that all list the
same keys as the first record, where the first record has at least one
field and every key and value is non-empty, converting the records to
CSV and parsing the table back yields the same field names and values
for every record. -/
theorem c2_csv_roundtrip (data : List JsonRecord) (r : JsonRecord)
    (rest : List JsonRecord) (hdata : data = r :: rest)
    (huniform : ∀ rec ∈ data, keysOf rec = keysOf r)
    (hne : r ≠ [])
    (hfields : ∀ rec ∈ data, ∀ kv ∈ rec, kv.1 ≠ [] ∧ kv.2 ≠ []) :
    ∃ lines, jsonToCsv data = Except.ok lines ∧ csvParse lines = data := by
  subst hdata
  refine ⟨joinRow (keysOf r) :: (r :: rest).map (fun rec => joinRow (valuesOf rec)),
    rfl, ?_⟩
  have hkeysne : keysOf r ≠ [] := by simp [keysOf, hne]
  have hkeysfields : ∀ f ∈ keysOf r, f ≠ [] := by
    intro f hf
    simp only [keysOf, List.mem_map] at hf
    obtain ⟨kv, hkv, heq⟩ := hf
    exact heq ▸ (hfields r (by simp) kv hkv).1
  have hheader : parseRow (joinRow (keysOf r)) = keysOf r :=
    parseRow_joinRow _ hkeysne hkeysfields
  simp only [csvParse, List.map_map]
  have hrec : ∀ rec ∈ r :: rest,
      (parseRow (joinRow (keysOf r))).zip (parseRow (joinRow (valuesOf rec))) = rec := by
    intro rec hrec
    have hkeq : keysOf rec = keysOf r := huniform rec hrec
    have hrecne : rec ≠ [] := by
      intro hcon
      rw [hcon] at hkeq
      exact hkeysne hkeq.symm
    have hvne : valuesOf rec ≠ [] := by simp [valuesOf, hrecne]
    have hvfields : ∀ f ∈ valuesOf rec, f ≠ [] := by
      intro f hf
      simp only [valuesOf, List.mem_map] at hf
      obtain ⟨kv, hkv, heq⟩ := hf
      exact heq ▸ (hfields rec hrec kv hkv).2
    rw [hheader, parseRow_joinRow _ hvne hvfields, ← hkeq]
    simp [keysOf, valuesOf, List.zip_map']
  calc (r :: rest).map
        (fun rec => (parseRow (joinRow (keysOf r))).zip (parseRow (joinRow (valuesOf rec))))
      = (r :: rest).map id := List.map_congr_left hrec
    _ = r :: rest := List.map_id _

/-- Witness for C2 (amended) on two uniform-schema records whose values
contain a delimiter and an embedded quote. -/
theorem c2_witness :
    ∃ lines, jsonToCsv uniformRecords = Except.ok lines
      ∧ csvParse lines = uniformRecords :=
  c2_csv_roundtrip uniformRecords
    [("account_id".data, "1".data), ("note".data, "a,b".data)]
    [[("account_id".data, "2".data), ("note".data, "say \"hi\"".data)]]
    rfl (by decide) (by decide) (by decide)

/-- C3 counterexample: in the index-creation cell of the Redis notebook
the `dropindex` call fails, yet the cell completes with the create call's
result — the failure is caught by the bare `except: pass` and does not
propagate, and index creation proceeds as the fallback path. -/
theorem c3_counterexample :
    createIndexCell (Except.error "Unknown index name") (Except.ok "OK")
      = Except.ok "OK" := rfl

/-- C3 (amended): failures of external calls propagate immediately and
unhandled — a `create_index` failure halts its cell whatever the drop
result was, and the first upload failure halts the upload loop with no
retry and no later upload — except at two sites: the `dropindex` call,
whose failure is swallowed by `except: pass` before the index is
recreated, and `display_retrieved_images`, which catches the
attribute/index error of the annotation access, prints a notice and
returns an empty dict. -/
theorem c3_errors_propagate_except_two_catches :
    (∀ e createRes, createIndexCell (Except.error e) createRes = createRes)
    ∧ (∀ dropRes e, createIndexCell dropRes (Except.error e) = Except.error e)
    ∧ (∀ mapping order resp, getAnns resp = none →
        display_retrieved_images mapping order resp
          = { printed := ["No search results found in the response."], displayed := [] })
    ∧ (∀ uploadFn r rs e, uploadFn r = Except.error e →
        runUploads uploadFn (r :: rs) = Except.error e) := by
  refine ⟨fun e c => rfl, ?_, ?_, ?_⟩
  · intro d e
    cases d <;> rfl
  · intro mapping order resp h
    simp [display_retrieved_images, h]
  · intro uploadFn r rs e h
    simp [runUploads, h]

/-- Witness for C3 (amended) at concrete oracle results. -/
theorem c3_witness :
    createIndexCell (Except.error "err") (Except.ok "OK") = Except.ok "OK"
    ∧ createIndexCell (Except.ok "OK") (Except.error "ResponseError")
        = Except.error "ResponseError"
    ∧ display_retrieved_images [] [] emptyResp
        = { printed := ["No search results found in the response."], displayed := [] }
    ∧ runUploads failUpload [sampleReq] = Except.error "AuthenticationError" :=
  ⟨c3_errors_propagate_except_two_catches.1 "err" (Except.ok "OK"),
   c3_errors_propagate_except_two_catches.2.1 (Except.ok "OK") "ResponseError",
   c3_errors_propagate_except_two_catches.2.2.1 [] [] emptyResp rfl,
   c3_errors_propagate_except_two_catches.2.2.2 failUpload sampleReq [] "AuthenticationError" rfl⟩

/-- C4 counterexample: a row whose required content value is missing
(NaN) does not make the composer fail — `upload_files_to_vector_store`
substitutes the default payload `'No information available.'` (and the
positional default for the missing `id`) and sends the request to the
external service. -/
theorem c4_counterexample :
    uploadRequests [nanRow]
      = [{ name := "context_0_july.txt", payload := "No information available." }] := rfl

/-- C4 (amended): `analyze_image_sentiment` does fail before any network
call when the image file is missing, sending nothing; but
`upload_files_to_vector_store` never fails on a missing column value — it
sends one request per row, substituting `'No information available.'`
for a missing content value. -/
theorem c4_compose_failfast_vs_substitution :
    (∀ fs net image_path, fs image_path = none →
        analyze_image_sentiment fs net image_path
          = (Except.error ("FileNotFoundError: " ++ image_path), []))
    ∧ (∀ rows, (uploadRequests rows).length = rows.length)
    ∧ (∀ i row, row.content = none →
        (composeUpload i row).payload = "No information available.") := by
  refine ⟨?_, ?_, ?_⟩
  · intro fs net image_path h
    simp [analyze_image_sentiment, analyzeImageRequest, encode_image, h]
  · intro rows
    exact uploadRequestsFrom_length 0 rows
  · intro i row h
    simp [composeUpload, h]

/-- Witness for C4 (amended): a missing image file yields an error and an
empty sent-request list; a one-row upload still sends one request, with
the substituted payload. -/
theorem c4_witness :
    analyze_image_sentiment noFs noNet ".local_cache/images/9.png"
      = (Except.error ("FileNotFoundError: " ++ ".local_cache/images/9.png"), [])
    ∧ (uploadRequests [nanRow]).length = [nanRow].length
    ∧ (composeUpload 0 nanRow).payload = "No information available." :=
  ⟨c4_compose_failfast_vs_substitution.1 noFs noNet ".local_cache/images/9.png" rfl,
   c4_compose_failfast_vs_substitution.2.1 [nanRow],
   c4_compose_failfast_vs_substitution.2.2 0 nanRow rfl⟩

/-- C5: decoding after encoding is the identity on every byte sequence,
the empty sequence included. -/
theorem c5_base64_roundtrip (bs : List Nat) (h : ∀ x ∈ bs, x < 256) :
    b64decode (b64encode bs) = bs :=
  b64_roundtrip_aux bs h

/-- Witness for C5 at the empty sequence and at a five-byte sequence
covering a padded final group. -/
theorem c5_witness :
    b64decode (b64encode []) = []
    ∧ b64decode (b64encode [77, 97, 110, 255, 0]) = [77, 97, 110, 255, 0] :=
  ⟨c5_base64_roundtrip [] (by decide),
   c5_base64_roundtrip [77, 97, 110, 255, 0] (by decide)⟩

/-- C6 counterexample: two runs on a byte-identical response whose
retrieved set has two files.  Both iteration orders enumerate that set —
a Python set of strings fixes no order across interpreter sessions — yet
the produced artifacts (printed lines and displayed images) differ, so
the artifact is not identical for every pair of runs. -/
theorem c6_counterexample :
    orderA.Perm (retrievedFiles respTwoHits)
    ∧ orderB.Perm (retrievedFiles respTwoHits)
    ∧ display_retrieved_images mappingTwo orderA respTwoHits
        ≠ display_retrieved_images mappingTwo orderB respTwoHits := by
  refine ⟨by decide, by decide, by decide⟩

/-- C6 (amended): given byte-identical Response input, the CSV artifact
is a pure function of the records, and `display_retrieved_images` is
deterministic up to the interpreter's set-iteration order: any two runs
display the same images and print the same lines up to permutation. -/
theorem c6_deterministic_up_to_set_order (mapping : List (String × String))
    (resp : RagResponse) (o1 o2 : List String)
    (h1 : o1.Perm (retrievedFiles resp)) (h2 : o2.Perm (retrievedFiles resp)) :
    (display_retrieved_images mapping o1 resp).displayed.Perm
      (display_retrieved_images mapping o2 resp).displayed
    ∧ (display_retrieved_images mapping o1 resp).printed.Perm
      (display_retrieved_images mapping o2 resp).printed := by
  have h12 : o1.Perm o2 := h1.trans h2.symm
  cases hg : getAnns resp with
  | none =>
    simp only [display_retrieved_images, hg]
    exact ⟨List.Perm.refl _, List.Perm.refl _⟩
  | some anns =>
    simp only [display_retrieved_images, hg]
    have hperm := h12.filterMap (fun file =>
      match List.lookup file mapping with
      | some p => if p = "" then none else some (file, ".local_cache/images/" ++ p)
      | none => none)
    exact ⟨hperm, hperm.map _⟩

/-- Witness for C6 (amended) at the two-hit response and its two
iteration orders. -/
theorem c6_witness :
    (display_retrieved_images mappingTwo orderA respTwoHits).displayed.Perm
      (display_retrieved_images mappingTwo orderB respTwoHits).displayed
    ∧ (display_retrieved_images mappingTwo orderA respTwoHits).printed.Perm
      (display_retrieved_images mappingTwo orderB respTwoHits).printed :=
  c6_deterministic_up_to_set_order mappingTwo respTwoHits orderA orderB
    (by decide) (by decide)

/-- C7: whenever the endpoint returns a non-success status the client
fails with a `ServiceError` carrying that status and its category, and
the category of a 400 (client error) differs from that of a 401 (auth
error), so the two failures are distinguishable. -/
theorem c7_service_error_categories (resp : HttpResp)
    (h : ¬ (200 ≤ resp.status ∧ resp.status < 300)) :
    (∃ e, serviceClient resp = Except.error e ∧ e.status = resp.status
        ∧ e.category = categoryOf resp.status)
    ∧ categoryOf 400 ≠ categoryOf 401 := by
  constructor
  · unfold serviceClient
    rw [if_neg h]
    exact ⟨_, rfl, rfl, rfl⟩
  · decide

/-- Witness for C7: the concrete errors produced for a 400 and a 401
response, and their distinct categories via the theorem at status 400. -/
theorem c7_witness :
    serviceClient { status := 400, body := "bad query" }
      = Except.error { status := 400, category := ErrCategory.clientError,
                       message := "Bad Request. Invalid input." }
    ∧ serviceClient { status := 401, body := "no key" }
      = Except.error { status := 401, category := ErrCategory.authError,
                       message := "Unauthorized. Invalid or missing API key." }
    ∧ categoryOf 400 ≠ categoryOf 401 :=
  ⟨rfl, rfl,
   (c7_service_error_categories { status := 400, body := "bad query" } (by decide)).2⟩

/-- C8: on the empty record list the JSON-to-CSV conversion fails with
the indexing error from `data[0]` and produces no file; on every
non-empty record list it produces the header line plus one line per
record. -/
theorem c8_empty_records_index_error :
    jsonToCsv ([] : List JsonRecord) = Except.error "IndexError: list index out of range"
    ∧ ∀ (r : JsonRecord) (rest : List JsonRecord),
        jsonToCsv (r :: rest)
          = Except.ok (joinRow (keysOf r) :: (r :: rest).map (fun rec => joinRow (valuesOf rec))) := by
  exact ⟨rfl, fun r rest => rfl⟩

/-- C9: after the merge, each output row keeps every column except
`full_sentiment` unchanged; `full_sentiment` is non-missing whenever the
row had text or an image, equals the image sentiment prefixed by the text
when both are present, the bare image sentiment when only the image is,
and the unchanged text for image-less rows. -/
theorem c9_full_sentiment_merge (f : String → String) (rows : List FeedbackRow) :
    (mergeFullSentiment f rows).length = rows.length
    ∧ ∀ i row out, rows.get? i = some row →
        (mergeFullSentiment f rows).get? i = some out →
        out.id = row.id ∧ out.month = row.month ∧ out.text = row.text
        ∧ out.image_path = row.image_path ∧ out.label = row.label
        ∧ ((row.text ≠ none ∨ row.image_path ≠ none) → out.full_sentiment ≠ none)
        ∧ (∀ p t, row.image_path = some p → row.text = some t →
            out.full_sentiment = some (t ++ " " ++ f (imageFsPath p)))
        ∧ (∀ p, row.image_path = some p → row.text = none →
            out.full_sentiment = some (f (imageFsPath p)))
        ∧ (row.image_path = none → out.full_sentiment = row.text) := by
  constructor
  · simp [mergeFullSentiment]
  · intro i row out hrow hout
    have hm : (mergeFullSentiment f rows).get? i
        = some { id := row.id, month := row.month, text := row.text
                 image_path := row.image_path, label := row.label
                 full_sentiment :=
                   match row.image_path with
                   | some p =>
                     match row.text with
                     | some t => some (t ++ " " ++ f (imageFsPath p))
                     | none => some (f (imageFsPath p))
                   | none => row.text } := by
      rw [mergeFullSentiment, List.get?_map, hrow]
      rfl
    rw [hm] at hout
    obtain rfl := Option.some.inj hout.symm
    refine ⟨rfl, rfl, rfl, rfl, rfl, ?_, ?_, ?_, ?_⟩
    · intro hsome
      rcases himg : row.image_path with _ | p
      · rcases htext : row.text with _ | t
        · simp [himg, htext] at hsome
        · simp [himg, htext]
      · rcases htext : row.text with _ | t <;> simp [himg, htext]
    · intro p t hp ht
      simp [hp, ht]
    · intro p hp ht
      simp [hp, ht]
    · intro hp
      simp [hp]

/-- Witness for C9 at a two-row fixture: an image-with-text row and a
text-only row. -/
theorem c9_witness :
    (mergeFullSentiment sentimentFix rows2).length = 2
    ∧ outImg.full_sentiment = some ("Great!" ++ " " ++ sentimentFix (imageFsPath "1.png"))
    ∧ outText.full_sentiment = rowTextOnly.text
    ∧ outImg.id = rowImgText.id :=
  ⟨(c9_full_sentiment_merge sentimentFix rows2).1,
   ((c9_full_sentiment_merge sentimentFix rows2).2 0 rowImgText outImg rfl rfl).2.2.2.2.2.2.1
     "1.png" "Great!" rfl rfl,
   ((c9_full_sentiment_merge sentimentFix rows2).2 1 rowTextOnly outText rfl rfl).2.2.2.2.2.2.2.2
     rfl,
   ((c9_full_sentiment_merge sentimentFix rows2).2 0 rowImgText outImg rfl rfl).1⟩

set_option maxRecDepth 40000 in
/-- C10: the cache file name is derived from Python's salted string hash
of the prompt, so it is not a function of the prompt alone: two sessions
whose hash salts differ derive different cache paths for the very prompt
hard-coded in the cell, and the second session misses the first session's
cache file and calls the external image API again, while a run under the
first session's salt hits its cache and does not. -/
theorem c10_cache_path_session_dependent :
    cachePath 0 pastaPrompt ≠ cachePath 1 pastaPrompt
    ∧ (generateImageCell 1 [cachePath 0 pastaPrompt] pastaPrompt).2 = true
    ∧ (generateImageCell 0 [cachePath 0 pastaPrompt] pastaPrompt).2 = false := by
  refine ⟨by decide, by decide, by decide⟩

end Cookbook
